import Mathlib

/-!
Shallow embedding of `src/FASTAPI_s3.py` (EnergyPerformance).

Real numbers of the Python program are modelled as exact rationals `ℚ`;
Python exceptions (`ValueError` in the calculator, the boundary
`HTTPException` for an empty input) are modelled by `Except CalcError`.
The builtin `round(x, n)` of Python (round half to even) is modelled exactly on `ℚ`.
-/

/-- Lowercase a string character by character; mirrors `source.lower()`
in the Python code (all source keys are ASCII). -/
def strLower (s : String) : String := String.mk (s.data.map Char.toLower)

/-- The static table `EMISSION_FACTORS` of `src/FASTAPI_s3.py`, lines 8-15:
coal 0.9, natural_gas 0.45, oil 0.7, nuclear 0.004, renewables 0.03,
grid_mix 0.5 (kg CO2 per kWh). -/
def EMISSION_FACTORS : List (String × ℚ) :=
  [("coal", 9/10), ("natural_gas", 45/100), ("oil", 7/10),
   ("nuclear", 4/1000), ("renewables", 3/100), ("grid_mix", 5/10)]

/-- Dictionary membership test and lookup `EMISSION_FACTORS[source]`. -/
def emissionFactor? (source : String) : Option ℚ := EMISSION_FACTORS.lookup source

/-- Round a rational to the nearest integer, ties to even: the rounding
mode of the builtin `round` of Python. -/
def roundHalfEven (x : ℚ) : ℤ :=
  if x - ⌊x⌋ < 1/2 then ⌊x⌋
  else if 1/2 < x - ⌊x⌋ then ⌊x⌋ + 1
  else if ⌊x⌋ % 2 = 0 then ⌊x⌋ else ⌊x⌋ + 1

/-- Python `round(x, n)` on exact rationals. -/
def roundTo (n : ℕ) (x : ℚ) : ℚ := (roundHalfEven (x * 10 ^ n) : ℚ) / 10 ^ n

/-- Line 30: `day_hours = list(range(6, 22))`. -/
def day_hours : List ℕ := List.range' 6 16

/-- Line 31: `night_hours = list(range(22, 24)) + list(range(0, 6))`. -/
def night_hours : List ℕ := List.range' 22 2 ++ List.range' 0 6

/-- Line 34: `sum(hourly_consumption[hour] for hour in day_hours if hour < len(hourly_consumption))`. -/
def daytime_consumption (hourly_consumption : List ℚ) : ℚ :=
  ((day_hours.filter (fun hour => hour < hourly_consumption.length)).map
    (fun hour => hourly_consumption.getD hour 0)).sum

/-- Line 35: the same sum over `night_hours`. -/
def nighttime_consumption (hourly_consumption : List ℚ) : ℚ :=
  ((night_hours.filter (fun hour => hour < hourly_consumption.length)).map
    (fun hour => hourly_consumption.getD hour 0)).sum

/-- Line 38: `total_consumption = sum(hourly_consumption)`. -/
def total_consumption (hourly_consumption : List ℚ) : ℚ := hourly_consumption.sum

/-- Line 41: `total_co2_emissions = total_consumption * emission_factor`. -/
def total_co2_emissions (hourly_consumption : List ℚ) (emission_factor : ℚ) : ℚ :=
  total_consumption hourly_consumption * emission_factor

/-- Line 44: `daytime_cost = daytime_consumption * day_tariff if daytime_consumption > 0 else 0`. -/
def daytime_cost (hourly_consumption : List ℚ) (day_tariff : ℚ) : ℚ :=
  if 0 < daytime_consumption hourly_consumption then
    daytime_consumption hourly_consumption * day_tariff
  else 0

/-- Line 45: `nighttime_cost = nighttime_consumption * night_tariff if nighttime_consumption > 0 else 0`. -/
def nighttime_cost (hourly_consumption : List ℚ) (night_tariff : ℚ) : ℚ :=
  if 0 < nighttime_consumption hourly_consumption then
    nighttime_consumption hourly_consumption * night_tariff
  else 0

/-- Line 48: `total_cost = daytime_cost + nighttime_cost`. -/
def total_cost (hourly_consumption : List ℚ) (day_tariff night_tariff : ℚ) : ℚ :=
  daytime_cost hourly_consumption day_tariff + nighttime_cost hourly_consumption night_tariff

/-- The eight output fields of the `performance_metrics` dict, lines 51-60,
in source order. -/
structure PerformanceMetrics where
  averageEnergyCostPerKWh : ℚ
  totalDayTimeConsumption : ℚ
  totalNightTimeConsumption : ℚ
  totalCarbonEmissions : ℚ
  totalEnergyConsumption : ℚ
  daytimeCost : ℚ
  nighttimeCost : ℚ
  totalCost : ℚ
deriving DecidableEq

/-- The one error kind of the program: `ValueError` from the calculator and
the boundary `HTTPException` both signal invalid input. `invalidSource`
carries the (lowercased) offending value and the list of valid keys that the
message on line 24 reports. -/
inductive CalcError where
  | emptyConsumption : CalcError
  | invalidSource : String → List String → CalcError
deriving DecidableEq

/-- Lines 29-60 of `calculate_performance_metrics`: the straight-line metric
computation after validation has fetched the emission factor. Every field is
rounded independently, to 2 decimal places except the CO2 field (3). -/
def compute_metrics (hourly_consumption : List ℚ)
    (day_tariff night_tariff emission_factor : ℚ) : PerformanceMetrics :=
  ⟨if 0 < total_consumption hourly_consumption then
      roundTo 2 (total_cost hourly_consumption day_tariff night_tariff /
        total_consumption hourly_consumption)
    else 0,
   roundTo 2 (daytime_consumption hourly_consumption),
   roundTo 2 (nighttime_consumption hourly_consumption),
   roundTo 3 (total_co2_emissions hourly_consumption emission_factor),
   roundTo 2 (total_consumption hourly_consumption),
   roundTo 2 (daytime_cost hourly_consumption day_tariff),
   roundTo 2 (nighttime_cost hourly_consumption night_tariff),
   roundTo 2 (total_cost hourly_consumption day_tariff night_tariff)⟩

/-- Lines 17-62: validate (non-empty input, recognised lowercased source),
then compute the metrics. -/
def calculate_performance_metrics (hourly_consumption : List ℚ)
    (day_tariff night_tariff : ℚ) (source : String) :
    Except CalcError PerformanceMetrics :=
  if hourly_consumption.length < 1 then Except.error CalcError.emptyConsumption
  else
    match emissionFactor? (strLower source) with
    | none => Except.error
        (CalcError.invalidSource (strLower source) (EMISSION_FACTORS.map Prod.fst))
    | some emission_factor =>
        Except.ok (compute_metrics hourly_consumption day_tariff night_tariff emission_factor)

/-- Line 95: `num_days = math.ceil(len(hourly_consumption) / 24)`, as exact
integer ceiling division. -/
def num_days (hourly_consumption : List ℚ) : ℕ := (hourly_consumption.length + 23) / 24

/-- Lines 98-100: `hourly_consumption[day_index*24 : day_index*24 + 24]`. -/
def day_slice (hourly_consumption : List ℚ) (day_index : ℕ) : List ℚ :=
  (hourly_consumption.drop (day_index * 24)).take 24

/-- The loop of lines 97-103: run the calculator on each day slice in order,
pairing the result with the 1-based day number; a raised error aborts the
loop and discards everything built so far, as a Python exception does. -/
def run_days (hourly_consumption : List ℚ) (day_tariff night_tariff : ℚ)
    (source : String) : List ℕ → Except CalcError (List (ℕ × PerformanceMetrics))
  | [] => Except.ok []
  | day_index :: rest =>
    match calculate_performance_metrics (day_slice hourly_consumption day_index)
        day_tariff night_tariff source with
    | Except.error e => Except.error e
    | Except.ok m =>
      match run_days hourly_consumption day_tariff night_tariff source rest with
      | Except.error e => Except.error e
      | Except.ok tail => Except.ok ((day_index + 1, m) :: tail)

/-- Lines 64-108, the endpoint body: fast-fail on an empty input, then chunk
into days of up to 24 hours and run the calculator per chunk. -/
def performance_metrics (hourly_consumption : List ℚ) (day_tariff night_tariff : ℚ)
    (source : String) : Except CalcError (List (ℕ × PerformanceMetrics)) :=
  if hourly_consumption.length = 0 then Except.error CalcError.emptyConsumption
  else run_days hourly_consumption day_tariff night_tariff source
    (List.range (num_days hourly_consumption))

/-- Query parameters of one HTTP request. -/
structure Request where
  hourly_consumption : List ℚ
  day_tariff : ℚ
  night_tariff : ℚ
  source : String

/-- Serving one request is a pure function of that request alone. -/
def handle (r : Request) : Except CalcError (List (ℕ × PerformanceMetrics)) :=
  performance_metrics r.hourly_consumption r.day_tariff r.night_tariff r.source

/-- Serving a sequence of requests one after another: there is no state
threaded from one call to the next. -/
def process_requests (reqs : List Request) :
    List (Except CalcError (List (ℕ × PerformanceMetrics))) :=
  reqs.map handle

/-! ## Helper lemmas -/

/-- Summing `l.getD i 0` over `i < n` and adding the sum of the dropped tail
recovers the sum of the whole list, for `n` within bounds. -/
lemma sum_range_getD_add_drop (l : List ℚ) :
    ∀ n, n ≤ l.length →
      ((List.range n).map (fun i => l.getD i 0)).sum + (l.drop n).sum = l.sum := by
  induction l with
  | nil => intro n hn; rw [Nat.le_zero.mp hn]; simp
  | cons a t ih =>
    intro n hn
    match n with
    | 0 => simp
    | Nat.succ m =>
      simp only [List.range_succ_eq_map, List.map_cons, List.map_map,
        List.getD_cons_zero, List.sum_cons, List.drop_succ_cons]
      have hcomp : ((fun i => (a :: t).getD i 0) ∘ Nat.succ) = fun i => t.getD i 0 := rfl
      rw [hcomp, add_assoc, ih m (by simpa using hn)]

/-- Summing `l.getD i 0` over all `i < l.length` gives the sum of `l`. -/
lemma sum_range_getD (l : List ℚ) :
    ((List.range l.length).map (fun i => l.getD i 0)).sum = l.sum := by
  have h := sum_range_getD_add_drop l l.length le_rfl
  simpa using h

/-- The concatenation of the day-hour and night-hour index lists is a
permutation of the 24 local hour indices. -/
lemma perm_day_night : (day_hours ++ night_hours).Perm (List.range 24) := by decide

/-- Filtering the 24 hour indices down to those below `L ≤ 24` leaves
exactly the indices below `L`. -/
lemma range24_filter_lt (L : ℕ) (hL : L ≤ 24) :
    (List.range 24).filter (fun h => h < L) = List.range L := by
  interval_cases L <;> decide

/-- For a chunk of length at most 24, the day-hours sum and the night-hours
sum together cover each index below the length exactly once. -/
lemma day_night_split (l : List ℚ) (hlen : l.length ≤ 24) :
    daytime_consumption l + nighttime_consumption l = l.sum := by
  unfold daytime_consumption nighttime_consumption
  rw [← List.sum_append, ← List.map_append, ← List.filter_append]
  have hperm : (((day_hours ++ night_hours).filter (fun hour => hour < l.length)).map
      (fun hour => l.getD hour 0)).Perm
      (((List.range 24).filter (fun hour => hour < l.length)).map
      (fun hour => l.getD hour 0)) :=
    (perm_day_night.filter _).map _
  rw [hperm.sum_eq, range24_filter_lt l.length hlen, sum_range_getD]

/-! ## C1 -/

/-- C1: for every non-empty consumption sequence of length at most 24, the
unrounded daytime and nighttime consumption computed by the calculator sum
exactly to the unrounded total consumption, because day-hours and
night-hours partition the local indices 0..23 and indices beyond the length
are absent from both sums. -/
theorem daytime_add_nighttime_eq_total (l : List ℚ) (hne : l ≠ [])
    (hlen : l.length ≤ 24) :
    daytime_consumption l + nighttime_consumption l = total_consumption l :=
  day_night_split l hlen

/-- Witness for C1 at the concrete three-hour input `[2, 3, 5]`. -/
theorem daytime_add_nighttime_eq_total_witness :
    daytime_consumption [2, 3, 5] + nighttime_consumption [2, 3, 5] =
      total_consumption [2, 3, 5] :=
  daytime_add_nighttime_eq_total [2, 3, 5] (by simp) (by simp)

/-! ## C4 -/

/-- C4: on the empty consumption sequence, both the calculator and the
endpoint fail with the empty-input error and produce no result at all: the
endpoint checks before chunking and the calculator checks again itself. -/
theorem empty_input_rejected (day_tariff night_tariff : ℚ) (source : String) :
    calculate_performance_metrics [] day_tariff night_tariff source =
      Except.error CalcError.emptyConsumption ∧
    performance_metrics [] day_tariff night_tariff source =
      Except.error CalcError.emptyConsumption :=
  ⟨rfl, rfl⟩

/-- Rounding an exact integer changes nothing. -/
lemma roundHalfEven_intCast (k : ℤ) : roundHalfEven (k : ℚ) = k := by
  unfold roundHalfEven
  rw [Int.floor_intCast]
  rw [if_pos (by norm_num)]

/-- A rational strictly inside `[k, k + 1/2)` rounds down to `k`. -/
lemma roundHalfEven_of_lt_half (x : ℚ) (k : ℤ) (h1 : (k : ℚ) ≤ x)
    (h2 : x < (k : ℚ) + 1/2) : roundHalfEven x = k := by
  have hf : ⌊x⌋ = k := Int.floor_eq_iff.mpr ⟨h1, by linarith⟩
  unfold roundHalfEven
  rw [hf, if_pos (by linarith)]

/-- Rounding to `n` decimals fixes any rational that is already an exact
multiple of `10 ^ (-n)`. -/
lemma roundTo_eq_self (n : ℕ) (x : ℚ) (k : ℤ) (h : x * 10 ^ n = (k : ℚ)) :
    roundTo n x = x := by
  unfold roundTo
  rw [h, roundHalfEven_intCast, ← h]
  field_simp

/-- On a non-empty input whose lowercased source has an emission factor, the
calculator succeeds with the straight-line metrics. -/
lemma calculate_ok (l : List ℚ) (dt nt : ℚ) (s : String) (f : ℚ)
    (hne : l ≠ []) (hf : emissionFactor? (strLower s) = some f) :
    calculate_performance_metrics l dt nt s =
      Except.ok (compute_metrics l dt nt f) := by
  unfold calculate_performance_metrics
  rw [if_neg (by simp [Nat.lt_one_iff, List.length_eq_zero, hne]), hf]

/-- On a non-empty input whose lowercased source has no emission factor, the
calculator fails, reporting the lowercased value and the valid keys. -/
lemma calculate_err (l : List ℚ) (dt nt : ℚ) (s : String)
    (hne : l ≠ []) (hf : emissionFactor? (strLower s) = none) :
    calculate_performance_metrics l dt nt s =
      Except.error (CalcError.invalidSource (strLower s)
        (EMISSION_FACTORS.map Prod.fst)) := by
  unfold calculate_performance_metrics
  rw [if_neg (by simp [Nat.lt_one_iff, List.length_eq_zero, hne]), hf]

/-! ## C2 -/

/-- C2: on 24 hours of 1.0 kWh at day tariff 0.10, night tariff 0.05,
source "coal", the calculator returns average cost per kWh 0.08, daytime
consumption 16.0, nighttime 8.0, CO2 21.6, total 24.0, daytime cost 1.6,
nighttime cost 0.4, total cost 2.0. -/
theorem coal_flat_day_example :
    calculate_performance_metrics (List.replicate 24 1) (1/10) (1/20) "coal" =
      Except.ok ⟨8/100, 16, 8, 216/10, 24, 16/10, 4/10, 2⟩ := by
  have hlow : strLower "coal" = "coal" := by decide
  have hsrc : emissionFactor? (strLower "coal") = some (9/10) := by
    rw [hlow]; norm_num [emissionFactor?, EMISSION_FACTORS, List.lookup]
  rw [calculate_ok (List.replicate 24 1) (1/10) (1/20) "coal" (9/10)
    (List.length_pos.mp (by simp)) hsrc]
  have hday : daytime_consumption (List.replicate 24 1) = 16 := by
    norm_num [daytime_consumption, day_hours, List.range', List.replicate,
      List.filter, List.getD]
  have hnight : nighttime_consumption (List.replicate 24 1) = 8 := by
    norm_num [nighttime_consumption, night_hours, List.range', List.replicate,
      List.filter, List.getD]
  have htot : total_consumption (List.replicate 24 1) = 24 := by
    simp [total_consumption, List.sum_replicate]
    norm_num
  have hco2 : total_co2_emissions (List.replicate 24 1) (9/10) = 108/5 := by
    unfold total_co2_emissions; rw [htot]; norm_num
  have hdc : daytime_cost (List.replicate 24 1) (1/10) = 8/5 := by
    unfold daytime_cost; rw [hday]; norm_num
  have hnc : nighttime_cost (List.replicate 24 1) (1/20) = 2/5 := by
    unfold nighttime_cost; rw [hnight]; norm_num
  have htc : total_cost (List.replicate 24 1) (1/10) (1/20) = 2 := by
    unfold total_cost; rw [hdc, hnc]; norm_num
  unfold compute_metrics
  rw [htot, hday, hnight, hco2, hdc, hnc, htc, if_pos (by norm_num)]
  simp only [PerformanceMetrics.mk.injEq, Except.ok.injEq]
  refine ⟨?_, ?_, ?_, ?_, ?_, ?_, ?_, ?_⟩
  · unfold roundTo
    rw [show ((2:ℚ)/24 * 10 ^ 2) = 25/3 by norm_num,
      roundHalfEven_of_lt_half (25/3) 8 (by norm_num) (by norm_num)]
    norm_num
  · exact (roundTo_eq_self 2 16 1600 (by norm_num))
  · exact (roundTo_eq_self 2 8 800 (by norm_num))
  · rw [roundTo_eq_self 3 (108/5) 21600 (by norm_num)]; norm_num
  · exact (roundTo_eq_self 2 24 2400 (by norm_num))
  · rw [roundTo_eq_self 2 (8/5) 160 (by norm_num)]; norm_num
  · rw [roundTo_eq_self 2 (2/5) 40 (by norm_num)]; norm_num
  · exact (roundTo_eq_self 2 2 200 (by norm_num))

/-- Looking a key up in an association list succeeds exactly when the key is
among the mapped-out first components. -/
lemma lookup_some_iff_mem_keys {β : Type} (t : String) (ps : List (String × β)) :
    (∃ f, ps.lookup t = some f) ↔ t ∈ ps.map Prod.fst := by
  induction ps with
  | nil => simp [List.lookup]
  | cons p rest ih =>
    obtain ⟨k, v⟩ := p
    rcases eq_or_ne t k with h | h
    · subst h; simp [List.lookup]
    · rw [List.lookup, beq_eq_false_iff_ne.mpr h]
      simpa [h] using ih

/-- A lookup in the emission table fails exactly when the key is outside the
six valid source names. -/
lemma emissionFactor_none_iff (t : String) :
    emissionFactor? t = none ↔
      t ∉ ["coal", "natural_gas", "oil", "nuclear", "renewables", "grid_mix"] := by
  have hmem : (∃ f, emissionFactor? t = some f) ↔
      t ∈ ["coal", "natural_gas", "oil", "nuclear", "renewables", "grid_mix"] :=
    lookup_some_iff_mem_keys t EMISSION_FACTORS
  constructor
  · intro h0 hmemk
    obtain ⟨f, hf⟩ := hmem.mpr hmemk
    rw [h0] at hf
    cases hf
  · intro hnot
    cases hcase : emissionFactor? t with
    | none => rfl
    | some f => exact absurd (hmem.mp ⟨f, hcase⟩) hnot

/-! ## C3 -/

/-- C3: on any non-empty input the calculator fails exactly when the
lowercased source is not one of the six table keys, and the failure carries
the lowercased value together with the enumerated list of valid keys; when
the lowercased source is a key, the computation succeeds, and each key maps
to its documented factor. -/
theorem source_validation (l : List ℚ) (dt nt : ℚ) (s : String) (hne : l ≠ []) :
    (emissionFactor? (strLower s) = none →
      calculate_performance_metrics l dt nt s =
        Except.error (CalcError.invalidSource (strLower s)
          ["coal", "natural_gas", "oil", "nuclear", "renewables", "grid_mix"]))
    ∧ (∀ f, emissionFactor? (strLower s) = some f →
      calculate_performance_metrics l dt nt s =
        Except.ok (compute_metrics l dt nt f))
    ∧ (∀ t : String, emissionFactor? t = none ↔
        t ∉ ["coal", "natural_gas", "oil", "nuclear", "renewables", "grid_mix"])
    ∧ emissionFactor? "coal" = some (9/10)
    ∧ emissionFactor? "natural_gas" = some (45/100)
    ∧ emissionFactor? "oil" = some (7/10)
    ∧ emissionFactor? "nuclear" = some (4/1000)
    ∧ emissionFactor? "renewables" = some (3/100)
    ∧ emissionFactor? "grid_mix" = some (5/10) := by
  refine ⟨?_, ?_, emissionFactor_none_iff, ?_, ?_, ?_, ?_, ?_, ?_⟩
  · intro hf
    have hkeys : EMISSION_FACTORS.map Prod.fst =
        ["coal", "natural_gas", "oil", "nuclear", "renewables", "grid_mix"] := rfl
    rw [calculate_err l dt nt s hne hf, hkeys]
  · intro f hf
    exact calculate_ok l dt nt s f hne hf
  · rfl
  · rfl
  · rfl
  · rfl
  · rfl
  · rfl

/-- Witness for C3: the unknown source "Wind" is rejected on a concrete
input, with the lowercased value and the full key list in the error. -/
theorem source_validation_witness :
    calculate_performance_metrics [1] 1 1 "Wind" =
      Except.error (CalcError.invalidSource "wind"
        ["coal", "natural_gas", "oil", "nuclear", "renewables", "grid_mix"]) := by
  have h := (source_validation [1] 1 1 "Wind" (by simp)).1
  have hlow : strLower "Wind" = "wind" := by decide
  rw [hlow] at h
  exact h ((emissionFactor_none_iff "wind").mpr (by decide))

/-! ## C6 -/

/-- C6: the average cost per kWh field is the (rounded) quotient of total
cost by total consumption when the total consumption is positive, and is 0
otherwise; in particular it is 0 whenever the total consumption is 0. -/
theorem average_cost_per_kwh (l : List ℚ) (dt nt f : ℚ) :
    (0 < total_consumption l →
      (compute_metrics l dt nt f).averageEnergyCostPerKWh =
        roundTo 2 (total_cost l dt nt / total_consumption l))
    ∧ (¬ 0 < total_consumption l →
      (compute_metrics l dt nt f).averageEnergyCostPerKWh = 0)
    ∧ (total_consumption l = 0 →
      (compute_metrics l dt nt f).averageEnergyCostPerKWh = 0) := by
  refine ⟨?_, ?_, ?_⟩
  · intro hpos
    unfold compute_metrics
    rw [if_pos hpos]
  · intro hneg
    unfold compute_metrics
    rw [if_neg hneg]
  · intro hzero
    unfold compute_metrics
    rw [if_neg (by rw [hzero]; exact lt_irrefl 0)]

/-- Witness for C6 at the all-zero one-hour input, whose total consumption
is 0 and whose average cost field is 0. -/
theorem average_cost_per_kwh_witness :
    (compute_metrics [0] 1 1 1).averageEnergyCostPerKWh = 0 :=
  (average_cost_per_kwh [0] 1 1 1).2.2 (by norm_num [total_consumption])

/-! ## C8 -/

/-- C8: every output field is an exact multiple of 1/100 (it was rounded to
2 decimal places) except the CO2 field, an exact multiple of 1/1000 (rounded
to 3 decimal places); each field is rounded on its own. -/
theorem fields_rounded (l : List ℚ) (dt nt f : ℚ) :
    (∃ k : ℤ, (compute_metrics l dt nt f).averageEnergyCostPerKWh = k / 100)
    ∧ (∃ k : ℤ, (compute_metrics l dt nt f).totalDayTimeConsumption = k / 100)
    ∧ (∃ k : ℤ, (compute_metrics l dt nt f).totalNightTimeConsumption = k / 100)
    ∧ (∃ k : ℤ, (compute_metrics l dt nt f).totalCarbonEmissions = k / 1000)
    ∧ (∃ k : ℤ, (compute_metrics l dt nt f).totalEnergyConsumption = k / 100)
    ∧ (∃ k : ℤ, (compute_metrics l dt nt f).daytimeCost = k / 100)
    ∧ (∃ k : ℤ, (compute_metrics l dt nt f).nighttimeCost = k / 100)
    ∧ (∃ k : ℤ, (compute_metrics l dt nt f).totalCost = k / 100) := by
  have h100 : ((10 : ℚ) ^ (2 : ℕ)) = 100 := by norm_num
  have h1000 : ((10 : ℚ) ^ (3 : ℕ)) = 1000 := by norm_num
  refine ⟨?_, ?_, ?_, ?_, ?_, ?_, ?_, ?_⟩
  · by_cases hpos : 0 < total_consumption l
    · exact ⟨roundHalfEven (total_cost l dt nt / total_consumption l * 10 ^ 2),
        by unfold compute_metrics roundTo; rw [if_pos hpos, h100]⟩
    · exact ⟨0, by unfold compute_metrics; rw [if_neg hpos]; norm_num⟩
  · exact ⟨roundHalfEven (daytime_consumption l * 10 ^ 2),
      by unfold compute_metrics roundTo; rw [h100]⟩
  · exact ⟨roundHalfEven (nighttime_consumption l * 10 ^ 2),
      by unfold compute_metrics roundTo; rw [h100]⟩
  · exact ⟨roundHalfEven (total_co2_emissions l f * 10 ^ 3),
      by unfold compute_metrics roundTo; rw [h1000]⟩
  · exact ⟨roundHalfEven (total_consumption l * 10 ^ 2),
      by unfold compute_metrics roundTo; rw [h100]⟩
  · exact ⟨roundHalfEven (daytime_cost l dt * 10 ^ 2),
      by unfold compute_metrics roundTo; rw [h100]⟩
  · exact ⟨roundHalfEven (nighttime_cost l nt * 10 ^ 2),
      by unfold compute_metrics roundTo; rw [h100]⟩
  · exact ⟨roundHalfEven (total_cost l dt nt * 10 ^ 2),
      by unfold compute_metrics roundTo; rw [h100]⟩

/-! ## C9 -/

/-- C9: serving requests is deterministic and stateless: equal requests give
equal responses, and in any two request sequences the response at a position
depends only on the request at that position, never on earlier calls. -/
theorem deterministic_stateless :
    (∀ r1 r2 : Request, r1 = r2 → handle r1 = handle r2)
    ∧ ∀ (a b : List Request) (i : ℕ), a[i]? = b[i]? →
        (process_requests a)[i]? = (process_requests b)[i]? := by
  constructor
  · intro r1 r2 h
    rw [h]
  · intro a b i h
    simp only [process_requests, List.getElem?_map, h]

/-- Witness for C9 on a concrete one-request sequence. -/
theorem deterministic_stateless_witness :
    handle ⟨[1], 1, 1, "coal"⟩ = handle ⟨[1], 1, 1, "coal"⟩ ∧
    (process_requests [⟨[1], 1, 1, "coal"⟩])[0]? =
      (process_requests [⟨[1], 1, 1, "coal"⟩])[0]? :=
  ⟨deterministic_stateless.1 _ _ rfl, deterministic_stateless.2 _ _ 0 rfl⟩

/-- Every day index below the ceiling day count starts strictly inside the
input, so its slice is non-empty. -/
lemma day_slice_ne_nil (l : List ℚ) (i : ℕ) (hi : i < num_days l) :
    day_slice l i ≠ [] := by
  have hlt : i * 24 < l.length := by
    unfold num_days at hi
    omega
  apply List.length_pos.mp
  simp only [day_slice, List.length_take, List.length_drop]
  omega

/-- When the source is valid and every requested slice is non-empty, the
day loop succeeds and returns, in order, the 1-based day number paired with
the metrics of the slice of that day. -/
lemma run_days_ok (l : List ℚ) (dt nt : ℚ) (s : String) (f : ℚ)
    (hf : emissionFactor? (strLower s) = some f) :
    ∀ idxs : List ℕ, (∀ i ∈ idxs, day_slice l i ≠ []) →
      run_days l dt nt s idxs =
        Except.ok (idxs.map (fun i => (i + 1, compute_metrics (day_slice l i) dt nt f))) := by
  intro idxs
  induction idxs with
  | nil => intro _; rfl
  | cons j rest ih =>
    intro hall
    rw [run_days, calculate_ok (day_slice l j) dt nt s f
        (hall j (List.mem_cons_self j rest)) hf,
      ih (fun i hi => hall i (List.mem_cons_of_mem j hi))]
    rfl

/-- On a non-empty input with a valid source, the endpoint succeeds and
returns one entry per day slice. -/
lemma performance_metrics_ok (l : List ℚ) (dt nt : ℚ) (s : String) (f : ℚ)
    (hne : l ≠ []) (hf : emissionFactor? (strLower s) = some f) :
    performance_metrics l dt nt s =
      Except.ok ((List.range (num_days l)).map
        (fun i => (i + 1, compute_metrics (day_slice l i) dt nt f))) := by
  unfold performance_metrics
  rw [if_neg (by simp [List.length_eq_zero, hne]),
    run_days_ok l dt nt s f hf (List.range (num_days l))
      (fun i hi => day_slice_ne_nil l i (List.mem_range.mp hi))]

/-! ## C5 -/

/-- C5: on a non-empty input of length N with a valid source, the endpoint
produces exactly ceil(N/24) entries; the 0-based entry i carries day number
i+1 and the metrics of the slice from index i*24 of length up to 24, in
input order. -/
theorem chunker_day_entries (l : List ℚ) (dt nt : ℚ) (s : String) (f : ℚ)
    (hne : l ≠ []) (hf : emissionFactor? (strLower s) = some f) :
    ∃ res, performance_metrics l dt nt s = Except.ok res ∧
      res.length = (l.length + 23) / 24 ∧
      ∀ i (hi : i < res.length), res.get ⟨i, hi⟩ =
        (i + 1, compute_metrics ((l.drop (i * 24)).take 24) dt nt f) := by
  refine ⟨_, performance_metrics_ok l dt nt s f hne hf, by simp [num_days], ?_⟩
  intro i hi
  simp only [List.get_eq_getElem, List.getElem_map, List.getElem_range, day_slice]

/-- Witness for C5: an input of 30 constant hours yields exactly two day
entries, day 1 covering indices 0-23 and day 2 covering indices 24-29. -/
theorem chunker_day_entries_witness :
    ∃ res, performance_metrics (List.replicate 30 1) (1/10) (1/20) "coal" =
        Except.ok res ∧ res.length = 2 ∧
      ∀ hi : 0 < res.length, res.get ⟨0, hi⟩ =
        (1, compute_metrics ((List.replicate 30 (1:ℚ)).take 24) (1/10) (1/20) (9/10)) := by
  have hlow : strLower "coal" = "coal" := by decide
  obtain ⟨res, h1, h2, h3⟩ :=
    chunker_day_entries (List.replicate 30 1) (1/10) (1/20) "coal" (9/10)
      (List.length_pos.mp (by simp))
      (by rw [hlow]; norm_num [emissionFactor?, EMISSION_FACTORS, List.lookup])
  refine ⟨res, h1, by rw [h2]; simp, ?_⟩
  intro hi
  have h0 := h3 0 hi
  simpa using h0

/-! ## C10 -/

/-- C10: every slice the chunker passes to the calculator has length between
1 and 24, so the empty-input branch of the calculator is unreachable through the
chunker; for every non-empty input with a valid source the endpoint succeeds
and every per-day slice satisfies the day/night additive invariant. -/
theorem chunker_slices_safe (l : List ℚ) (dt nt : ℚ) (s : String) (f : ℚ)
    (hne : l ≠ []) (hf : emissionFactor? (strLower s) = some f) :
    (∀ i, i < num_days l →
      1 ≤ (day_slice l i).length ∧ (day_slice l i).length ≤ 24)
    ∧ ∃ res, performance_metrics l dt nt s = Except.ok res ∧
        ∀ i, i < num_days l →
          daytime_consumption (day_slice l i) + nighttime_consumption (day_slice l i) =
            total_consumption (day_slice l i) := by
  have hlen : ∀ i, (day_slice l i).length ≤ 24 := by
    intro i
    simp only [day_slice, List.length_take]
    omega
  refine ⟨?_, ⟨_, performance_metrics_ok l dt nt s f hne hf, ?_⟩⟩
  · intro i hi
    exact ⟨List.length_pos.mpr (day_slice_ne_nil l i hi), hlen i⟩
  · intro i _
    exact day_night_split (day_slice l i) (hlen i)

/-- Witness for C10: on the 30-hour constant input, the second slice (day
index 1) has length 6, within bounds 1..24. -/
theorem chunker_slices_safe_witness :
    1 ≤ (day_slice (List.replicate 30 1) 1).length ∧
      (day_slice (List.replicate 30 1) 1).length ≤ 24 := by
  have hlow : strLower "coal" = "coal" := by decide
  exact (chunker_slices_safe (List.replicate 30 1) (1/10) (1/20) "coal" (9/10)
      (List.length_pos.mp (by simp))
      (by rw [hlow]; norm_num [emissionFactor?, EMISSION_FACTORS, List.lookup])).1 1
    (by norm_num [num_days])

/-- With at least 24 hours present, the day-hours and night-hours filters
keep every index, so the two sums together cover exactly indices 0..23. -/
lemma day_night_sum_first24 (l : List ℚ) (h : 24 ≤ l.length) :
    daytime_consumption l + nighttime_consumption l =
      ((List.range 24).map (fun i => l.getD i 0)).sum := by
  unfold daytime_consumption nighttime_consumption
  rw [← List.sum_append, ← List.map_append, ← List.filter_append]
  have hall : ∀ a ∈ day_hours ++ night_hours, a < 24 := by decide
  have hfil : (day_hours ++ night_hours).filter (fun hour => hour < l.length) =
      day_hours ++ night_hours := by
    rw [List.filter_eq_self]
    intro a ha
    simpa using lt_of_lt_of_le (hall a ha) h
  rw [hfil, (perm_day_night.map (fun hour => l.getD hour 0)).sum_eq]

/-! ## C7 -/

/-- C7: called directly on more than 24 (non-negative) values, the
total consumption of the calculator sums all elements while the day and night
sums stop at index 23; the difference is exactly the sum beyond index 23,
so the total strictly exceeds day + night whenever some element at index
24 or later is positive. -/
theorem total_exceeds_day_night_beyond_24 (l : List ℚ) (h24 : 24 < l.length)
    (hnn : ∀ x ∈ l, 0 ≤ x) :
    total_consumption l =
      daytime_consumption l + nighttime_consumption l + (l.drop 24).sum
    ∧ ((∃ x ∈ l.drop 24, 0 < x) →
        daytime_consumption l + nighttime_consumption l < total_consumption l) := by
  have heq : total_consumption l =
      daytime_consumption l + nighttime_consumption l + (l.drop 24).sum := by
    rw [day_night_sum_first24 l (le_of_lt h24)]
    unfold total_consumption
    rw [← sum_range_getD_add_drop l 24 (le_of_lt h24)]
  refine ⟨heq, ?_⟩
  rintro ⟨x, hx, hxpos⟩
  have hdropnn : ∀ y ∈ l.drop 24, 0 ≤ y :=
    fun y hy => hnn y (List.mem_of_mem_drop hy)
  have hsum : x ≤ (l.drop 24).sum := List.single_le_sum hdropnn x hx
  rw [heq]
  linarith

/-- Witness for C7 on 25 constant positive hours: the 25th value makes the
total strictly larger than day + night. -/
theorem total_exceeds_day_night_beyond_24_witness :
    daytime_consumption (List.replicate 25 1) + nighttime_consumption (List.replicate 25 1) <
      total_consumption (List.replicate 25 1) := by
  refine (total_exceeds_day_night_beyond_24 (List.replicate 25 1) (by simp)
    (fun x hx => ?_)).2 ⟨1, ?_, by norm_num⟩
  · rw [List.eq_of_mem_replicate hx]
    norm_num
  · rw [List.drop_replicate]
    simp
